import Mathlib

/-!
# Service worker of the Neuroimaging Dashboard: cache and sync engine

A shallow embedding of `src/frontend/public/service-worker.js`.

The worker runs on top of the browser's `CacheStorage`, `Cache`, `fetch`,
`Date` and `Response` objects.  They are modelled as follows.

* A `Cache` is an ordered list of request/response pairs; `cache.put`
  removes the entries of the request and appends the new pair.
* `CacheStorage` is the ordered list of named caches, in creation order;
  `caches.match` answers with the first hit over all caches in that order and
  `caches.open` creates a missing cache at the end.
* The network and the clock are an explicit environment `Env`: `fetch` settles
  with a response or rejects, `now` is `Date.now()` in milliseconds, and
  `parseDate` is the date-string reading done by `new Date(string)`
  (`none` stands for an invalid date, whose `getTime()` is `NaN`).
* Every asynchronous function is run to completion in program order, a
  `cache.put` that is not awaited included; every call the worker makes to the
  network or to a cache is recorded in a log.
* A request is its method and its URL (the request identity of the caches);
  requests are assumed to be ones the platform accepts as cache keys.
-/

namespace ServiceWorker

/-! ## Platform data -/

/-- Result of `new URL(request.url)`: the components the worker can read. -/
structure URL where
  origin : String
  pathname : String
  search : String
deriving DecidableEq, Repr

/-- Request identity: method and URL. -/
structure Request where
  method : String
  url : URL
deriving DecidableEq, Repr

/-- Header list of a response, in insertion order. -/
abbrev Headers := List (String × String)

/-- Network or cached response: status, header list and body text. -/
structure Response where
  status : Nat
  headers : Headers
  body : String
deriving DecidableEq, Repr

/-- Settlement of a promise of a response: fulfilled with a response or
rejected with an error. -/
inductive Settled where
  | fulfilled (response : Response)
  | rejected (error : String)
deriving DecidableEq, Repr

/-- `response.ok`: the status is in the range 200 to 299. -/
def Response.ok (r : Response) : Bool :=
  decide (200 ≤ r.status) && decide (r.status ≤ 299)

/-- `response.clone()`: a copy with the same status, headers and body. -/
def Response.clone (r : Response) : Response := r

/-- `String.prototype.startsWith` for the ASCII patterns of the worker. -/
def startsWith (s pattern : String) : Bool :=
  pattern.toList.isPrefixOf s.toList

/-- Byte-lowercase form of a header name. -/
def lowerName (s : String) : List Char :=
  s.toList.map Char.toLower

/-- `headers.get(name)`: names compare without case; several values of one
name are joined by a comma and a space; `none` is the `null` answer. -/
def Headers.get (h : Headers) (name : String) : Option String :=
  match (h.filter (fun p => lowerName p.1 == lowerName name)).map Prod.snd with
  | [] => none
  | v :: vs => some (String.intercalate ", " (v :: vs))

/-! ## Caches -/

/-- One named cache: its entries in insertion order. -/
abbrev Cache := List (Request × Response)

/-- All caches of the origin, in creation order. -/
abbrev CacheStorage := List (String × Cache)

/-- `cache.match(request)`: the first stored response of the request. -/
def Cache.matchRequest (c : Cache) (request : Request) : Option Response :=
  (c.find? (fun e => e.1 == request)).map Prod.snd

/-- `cache.put(request, response)`: drop the entries of the request, append
the new pair. -/
def Cache.put (c : Cache) (request : Request) (response : Response) : Cache :=
  c.filter (fun e => !(e.1 == request)) ++ [(request, response)]

/-- `cache.delete(request)`. -/
def Cache.delete (c : Cache) (request : Request) : Cache :=
  c.filter (fun e => !(e.1 == request))

/-- `cache.keys()`: the stored requests in insertion order. -/
def Cache.keys (c : Cache) : List Request :=
  c.map Prod.fst

/-- The cache of a given name, if it exists. -/
def CacheStorage.cache (cs : CacheStorage) (name : String) : Option Cache :=
  (cs.find? (fun p => p.1 == name)).map Prod.snd

/-- `caches.open(name)`: the storage after the call; a missing cache is
created empty, after the existing ones. -/
def CacheStorage.open (cs : CacheStorage) (name : String) : CacheStorage :=
  if cs.any (fun p => p.1 == name) then cs else cs ++ [(name, [])]

/-- `caches.match(request)`: the first hit over all caches, in creation
order. -/
def CacheStorage.matchRequest (cs : CacheStorage) (request : Request) : Option Response :=
  cs.findSome? (fun p => Cache.matchRequest p.2 request)

/-- Effect on the storage of `cache.put` through a handle of the cache `name`. -/
def CacheStorage.putIn (cs : CacheStorage) (name : String) (request : Request)
    (response : Response) : CacheStorage :=
  cs.map (fun p => if p.1 == name then (p.1, Cache.put p.2 request response) else p)

/-! ## Environment and log -/

/-- Network, clock and date reading seen by one run of a handler. -/
structure Env where
  /-- `Date.now()`, in milliseconds since the epoch. -/
  now : Int
  /-- `fetch(request)`: how the promise settles. -/
  fetch : Request → Settled
  /-- `new Date(text).getTime()`; `none` is `NaN` (invalid date). -/
  parseDate : String → Option Int

/-- The two request strategies of the fetch listener. -/
inductive Strategy where
  | api
  | asset
deriving DecidableEq, Repr

/-- Calls a handler makes, in program order. -/
inductive Call where
  | respondWith (strategy : Strategy)
  | fetch (request : Request)
  | cachesMatch (request : Request)
  | cachesOpen (name : String)
  | cachePut (name : String) (request : Request) (response : Response)
  | cacheDelete (name : String) (request : Request)
  | consoleError (message : String)
  | cachesDelete (name : String)
  | clientsClaim
  | skipWaiting
deriving DecidableEq, Repr

/-- End of a request handler: how its promise settles, the caches it leaves,
the calls it made. -/
structure Outcome where
  result : Settled
  caches : CacheStorage
  log : List Call
deriving DecidableEq, Repr

/-- End of a background task: the caches it leaves and the calls it made. -/
structure Batch where
  caches : CacheStorage
  log : List Call
deriving DecidableEq, Repr

/-! ## Constants of the worker -/

def CACHE_NAME : String := "neuroimaging-dashboard-v1"

def API_CACHE_NAME : String := "api-cache-v1"

def API_CACHE_DURATION : Int := 60 * 60 * 1000

/-! ## `JSON.stringify` on an object of text properties -/

/-- Hexadecimal digit, lower case. -/
def JSON.hexDigit (n : Nat) : Char :=
  Char.ofNat (if n < 10 then 48 + n else 87 + n)

/-- Escape of one character inside a JSON string. -/
def JSON.escape (c : Char) : List Char :=
  let n := c.toNat
  let backslash := Char.ofNat 92
  if n = 34 then [backslash, Char.ofNat 34]
  else if n = 92 then [backslash, backslash]
  else if n = 8 then [backslash, 'b']
  else if n = 12 then [backslash, 'f']
  else if n = 10 then [backslash, 'n']
  else if n = 13 then [backslash, 'r']
  else if n = 9 then [backslash, 't']
  else if n < 32 then [backslash, 'u', '0', '0', JSON.hexDigit (n / 16), JSON.hexDigit (n % 16)]
  else [c]

/-- A text value as JSON: quoted and escaped. -/
def JSON.quote (s : String) : String :=
  String.mk ([Char.ofNat 34] ++ (s.toList.map JSON.escape).flatten ++ [Char.ofNat 34])

/-- `JSON.stringify` of an object whose properties are all text. -/
def JSON.stringify (properties : List (String × String)) : String :=
  "\x7b" ++ String.intercalate ","
    (properties.map (fun p => JSON.quote p.1 ++ ":" ++ JSON.quote p.2)) ++ "\x7d"

/-! ## The API strategy -/

/-- The response built at lines 92 to 100: the answer given when neither the
network nor a valid cached copy is available. -/
def offlineResponse : Response :=
  { status := 503
    headers := [("Content-Type", "application/json")]
    body := JSON.stringify [("error", "You are offline and no cached data is available.")] }

/-- Line 85: `new Date(cachedResponse.headers.get('cache-time')).getTime()`.
A missing header is `null`, and `new Date(null)` is the epoch. -/
def cachedTime (env : Env) (cachedResponse : Response) : Option Int :=
  match Headers.get cachedResponse.headers "cache-time" with
  | none => some 0
  | some text => env.parseDate text

/-- Line 86: `Date.now() - cachedTime.getTime() < API_CACHE_DURATION`; a
comparison with `NaN` is false. -/
def cacheStillValid (env : Env) (cachedResponse : Response) : Bool :=
  match cachedTime env cachedResponse with
  | some t => decide (env.now - t < API_CACHE_DURATION)
  | none => false

/-- Lines 81 to 100 of `handleApiRequest`, reached whenever the `try` block
has not returned; `log` holds the calls made so far. -/
def apiFallback (env : Env) (cs : CacheStorage) (request : Request) (log : List Call) :
    Outcome :=
  match cs.matchRequest request with
  | some cachedResponse =>
    if cacheStillValid env cachedResponse then
      { result := .fulfilled cachedResponse, caches := cs, log := log ++ [.cachesMatch request] }
    else
      { result := .fulfilled offlineResponse, caches := cs, log := log ++ [.cachesMatch request] }
  | none =>
    { result := .fulfilled offlineResponse, caches := cs, log := log ++ [.cachesMatch request] }

/-- `handleApiRequest(request)`, lines 68 to 101. -/
def handleApiRequest (env : Env) (cs : CacheStorage) (request : Request) : Outcome :=
  match env.fetch request with
  | .fulfilled response =>
    if response.ok then
      { result := .fulfilled response
        caches := (cs.open API_CACHE_NAME).putIn API_CACHE_NAME request response.clone
        log := [.fetch request, .cachesOpen API_CACHE_NAME,
                .cachePut API_CACHE_NAME request response.clone] }
    else
      apiFallback env cs request [.fetch request]
  | .rejected _ =>
    apiFallback env cs request [.fetch request, .consoleError "Error fetching API data:"]

/-! ## The asset strategy and the fetch listener -/

/-- `fetchAndCache(request)`, lines 104 to 116. -/
def fetchAndCache (env : Env) (cs : CacheStorage) (request : Request) : Outcome :=
  match env.fetch request with
  | .fulfilled response =>
    if response.ok then
      { result := .fulfilled response
        caches := (cs.open CACHE_NAME).putIn CACHE_NAME request response.clone
        log := [.fetch request, .cachesOpen CACHE_NAME,
                .cachePut CACHE_NAME request response.clone] }
    else
      { result := .fulfilled response, caches := cs, log := [.fetch request] }
  | .rejected error =>
    { result := .rejected error, caches := cs
      log := [.fetch request, .consoleError "Error fetching and caching:"] }

/-- Line 54: `url.pathname.startsWith('/api/')`. -/
def isApiRequest (request : Request) : Bool :=
  startsWith request.url.pathname "/api/"

/-- The asset strategy of lines 60 to 64:
`caches.match(request).then((response) => response || fetchAndCache(request))`. -/
def assetCacheFirst (env : Env) (cs : CacheStorage) (request : Request) : Outcome :=
  match cs.matchRequest request with
  | some response =>
    { result := .fulfilled response, caches := cs, log := [.cachesMatch request] }
  | none =>
    let o := fetchAndCache env cs request
    { o with log := .cachesMatch request :: o.log }

/-- The `fetch` listener, lines 49 to 65: what the event is answered with. -/
def fetchListener (env : Env) (cs : CacheStorage) (request : Request) : Outcome :=
  if isApiRequest request then
    let o := handleApiRequest env cs request
    { o with log := .respondWith .api :: o.log }
  else
    let o := assetCacheFirst env cs request
    { o with log := .respondWith .asset :: o.log }

/-! ## Periodic refresh -/

/-- One callback of the `requests.map` of `updateData`, lines 186 to 195. -/
def updateOne (env : Env) (b : Batch) (request : Request) : Batch :=
  match env.fetch request with
  | .fulfilled response =>
    if response.ok then
      { caches := b.caches.putIn API_CACHE_NAME request response
        log := b.log ++ [.fetch request, .cachePut API_CACHE_NAME request response] }
    else
      { b with log := b.log ++ [.fetch request] }
  | .rejected _ =>
    { b with log := b.log ++ [.fetch request, .consoleError "Error updating cached data:"] }

/-- `updateData()`, lines 180 to 200, the callbacks taken in key order. -/
def updateData (env : Env) (cs : CacheStorage) : Batch :=
  let opened := cs.open API_CACHE_NAME
  let requests := Cache.keys ((opened.cache API_CACHE_NAME).getD [])
  requests.foldl (updateOne env) { caches := opened, log := [.cachesOpen API_CACHE_NAME] }

/-! ## Background sync -/

/-- Effect on the storage of `cache.delete` through a handle of the cache
`name`. -/
def CacheStorage.deleteIn (cs : CacheStorage) (name : String) (request : Request) :
    CacheStorage :=
  cs.map (fun p => if p.1 == name then (p.1, Cache.delete p.2 request) else p)

/-- End of `syncScans`: the array `Promise.all` resolves with (`none` is the
`null` of a failed replay), the caches it leaves, the calls it made. -/
structure SyncOutcome where
  results : List (Option Response)
  caches : CacheStorage
  log : List Call
deriving DecidableEq, Repr

/-- One callback of the `keys.map` of `syncScans`, lines 157 to 168. -/
def syncOne (env : Env) (s : SyncOutcome) (request : Request) : SyncOutcome :=
  match env.fetch request with
  | .fulfilled response =>
    if response.ok then
      { results := s.results ++ [some response]
        caches := s.caches.deleteIn "offline-scans" request
        log := s.log ++ [.fetch request, .cacheDelete "offline-scans" request] }
    else
      { s with results := s.results ++ [some response], log := s.log ++ [.fetch request] }
  | .rejected _ =>
    { s with results := s.results ++ [none]
             log := s.log ++ [.fetch request, .consoleError "Error syncing scan:"] }

/-- `syncScans()`, lines 152 to 170, the callbacks taken in key order. -/
def syncScans (env : Env) (cs : CacheStorage) : SyncOutcome :=
  let opened := cs.open "offline-scans"
  let keys := Cache.keys ((opened.cache "offline-scans").getD [])
  keys.foldl (syncOne env) { results := [], caches := opened, log := [.cachesOpen "offline-scans"] }

/-- The `sync` listener, lines 119 to 123. -/
def syncListener (env : Env) (cs : CacheStorage) (tag : String) : Batch :=
  if tag = "sync-scans" then
    { caches := (syncScans env cs).caches, log := (syncScans env cs).log }
  else
    { caches := cs, log := [] }

/-- The `periodicsync` listener, lines 173 to 177. -/
def periodicSyncListener (env : Env) (cs : CacheStorage) (tag : String) : Batch :=
  if tag = "update-data" then updateData env cs else { caches := cs, log := [] }

/-! ## Install and activate -/

/-- Whether the fetch of a request is answered with a 2xx response. -/
def fetchedOk (env : Env) (request : Request) : Bool :=
  match env.fetch request with
  | .fulfilled response => response.ok
  | .rejected _ => false

/-- What one callback of `syncScans` returns: the response, or `none` for
the `null` returned after a rejected fetch. -/
def replayResult (env : Env) (request : Request) : Option Response :=
  match env.fetch request with
  | .fulfilled response => some response
  | .rejected _ => none

/-- `caches.keys()`: the names of the caches, in creation order. -/
def CacheStorage.keys (cs : CacheStorage) : List String :=
  cs.map Prod.fst

/-- `caches.delete(name)`. -/
def CacheStorage.delete (cs : CacheStorage) (name : String) : CacheStorage :=
  cs.filter (fun p => !(p.1 == name))

/-- The filter callback of the `activate` listener, lines 34 to 39. -/
def isOldGeneration (cacheName : String) : Bool :=
  startsWith cacheName "neuroimaging-dashboard-" && cacheName != CACHE_NAME

/-- The `activate` listener, lines 28 to 46. -/
def activateListener (cs : CacheStorage) : Batch :=
  let doomed := cs.keys.filter isOldGeneration
  { caches := doomed.foldl CacheStorage.delete cs
    log := .clientsClaim :: doomed.map Call.cachesDelete }

/-! ## Reading a log -/

/-- Strategies a log dispatched to: its `respondWith` calls, in order. -/
def strategiesInvoked (log : List Call) : List Strategy :=
  log.filterMap (fun c => match c with
    | .respondWith s => some s
    | _ => none)

/-- Requests a log fetched, in order. -/
def fetchesOf (log : List Call) : List Request :=
  log.filterMap (fun c => match c with
    | .fetch request => some request
    | _ => none)

/-- Whether a call goes to the network. -/
def Call.isFetch : Call → Bool
  | .fetch _ => true
  | _ => false

/-- Whether a call writes to a cache. -/
def Call.isWrite : Call → Bool
  | .cachePut _ _ _ => true
  | .cacheDelete _ _ => true
  | .cachesDelete _ => true
  | _ => false

/-! ## Scenarios -/

/-- An absolute clock reading: 14 November 2023, 22:13:20 UTC. -/
def T0 : Int := 1700000000000

/-- One minute, in milliseconds. -/
def minute : Int := 60 * 1000

/-- The request `GET /api/v1/subjects`. -/
def subjectsRequest : Request :=
  { method := "GET"
    url := { origin := "https://dashboard.example", pathname := "/api/v1/subjects", search := "" } }

/-- The request `GET /index.html`. -/
def indexRequest : Request :=
  { method := "GET"
    url := { origin := "https://dashboard.example", pathname := "/index.html", search := "" } }

/-- A 200 answer of the server, without a `cache-time` header. -/
def subjectsResponse : Response :=
  { status := 200
    headers := [("Content-Type", "application/json")]
    body := "[\x7b\"id\":1\x7d]" }

/-- The same answer with a `cache-time` header naming `T0`. -/
def stampedResponse : Response :=
  { status := 200
    headers := [("Content-Type", "application/json"), ("cache-time", "2023-11-14T22:13:20.000Z")]
    body := "[\x7b\"id\":1\x7d]" }

/-- A 500 answer of the server. -/
def serverErrorResponse : Response :=
  { status := 500, headers := [("Content-Type", "text/plain")], body := "Internal Server Error" }

/-- A page of the application. -/
def indexResponse : Response :=
  { status := 200, headers := [("Content-Type", "text/html")], body := "<html>v1</html>" }

/-- Another copy of the page, held by a cache of another name. -/
def foreignResponse : Response :=
  { status := 200, headers := [("Content-Type", "text/html")], body := "<html>other</html>" }

/-- Date reading restricted to the one date text the scenarios use. -/
def scenarioParseDate (text : String) : Option Int :=
  if text = "2023-11-14T22:13:20.000Z" then some T0 else none

/-- Reachable network at time `now`: every fetch is answered with `response`. -/
def onlineAt (now : Int) (response : Response) : Env :=
  { now := now, fetch := fun _ => .fulfilled response, parseDate := scenarioParseDate }

/-- Unreachable network at time `now`: every fetch rejects. -/
def offlineAt (now : Int) : Env :=
  { now := now, fetch := fun _ => .rejected "TypeError: Failed to fetch"
    parseDate := scenarioParseDate }

/-! ## Lemmas on the caches -/

theorem find?_filter_of_imp {α : Type} (p q : α → Bool) (l : List α)
    (h : ∀ e, p e = true → q e = true) : (l.filter q).find? p = l.find? p := by
  induction l with
  | nil => rfl
  | cons e rest ih =>
    cases hq : q e with
    | true =>
      rw [List.filter_cons_of_pos hq, List.find?_cons, List.find?_cons, ih]
    | false =>
      have hp : p e = false := by
        cases hpe : p e with
        | false => rfl
        | true => rw [h e hpe] at hq; exact absurd hq (by decide)
      have hq2 : ¬ (q e = true) := by rw [hq]; decide
      rw [List.filter_cons_of_neg hq2, List.find?_cons, hp, ih]

theorem CacheStorage.matchRequest_eq_none_iff (cs : CacheStorage) (request : Request) :
    cs.matchRequest request = none ↔ ∀ p ∈ cs, Cache.matchRequest p.2 request = none := by
  unfold CacheStorage.matchRequest
  simp [List.findSome?_eq_none_iff]

theorem CacheStorage.matchRequest_cons (q : String × Cache) (rest : CacheStorage)
    (request : Request) :
    CacheStorage.matchRequest (q :: rest) request
      = (match Cache.matchRequest q.2 request with
         | some b => some b
         | none => CacheStorage.matchRequest rest request) := by
  unfold CacheStorage.matchRequest
  rw [List.findSome?_cons]
  cases Cache.matchRequest q.2 request <;> rfl

theorem CacheStorage.cache_cons (q : String × Cache) (rest : CacheStorage) (name : String) :
    CacheStorage.cache (q :: rest) name
      = if q.1 == name then some q.2 else CacheStorage.cache rest name := by
  unfold CacheStorage.cache
  rw [List.find?_cons]
  cases q.1 == name <;> rfl

theorem CacheStorage.cache_open_same (cs : CacheStorage) (name : String) :
    (cs.open name).cache name = some ((cs.cache name).getD []) := by
  unfold CacheStorage.open CacheStorage.cache
  split
  · rename_i h
    obtain ⟨p, hp, hname⟩ := List.any_eq_true.mp h
    cases hfind : cs.find? (fun p => p.1 == name) with
    | some x => rfl
    | none =>
      have := List.find?_eq_none.mp hfind p hp
      exact absurd hname this
  · rename_i h
    have hnone : cs.find? (fun p => p.1 == name) = none := by
      rw [List.find?_eq_none]
      intro x hx hxn
      exact h (List.any_eq_true.mpr ⟨x, hx, hxn⟩)
    simp [List.find?_append, hnone]

theorem CacheStorage.filter_open_other (cs : CacheStorage) (name : String) :
    (cs.open name).filter (fun p => !(p.1 == name)) = cs.filter (fun p => !(p.1 == name)) := by
  unfold CacheStorage.open
  split
  · rfl
  · simp [List.filter_append]

theorem CacheStorage.matchRequest_of_first_named (cs : CacheStorage) (name : String)
    (request : Request) (stored : Response)
    (hnamed : (cs.cache name).bind (fun c => Cache.matchRequest c request) = some stored)
    (hbefore : ∀ p ∈ cs.takeWhile (fun p => !(p.1 == name)),
      Cache.matchRequest p.2 request = none) :
    cs.matchRequest request = some stored := by
  induction cs with
  | nil => simp [CacheStorage.cache] at hnamed
  | cons q rest ih =>
    rw [CacheStorage.matchRequest_cons]
    rw [CacheStorage.cache_cons] at hnamed
    cases hq : (q.1 == name) with
    | true =>
      rw [hq] at hnamed
      have hqm : Cache.matchRequest q.2 request = some stored := by simpa using hnamed
      simp only [hqm]
    | false =>
      rw [hq] at hnamed
      have htw : (q :: rest).takeWhile (fun p => !(p.1 == name))
          = q :: rest.takeWhile (fun p => !(p.1 == name)) := by
        rw [List.takeWhile_cons]
        simp [hq]
      rw [htw] at hbefore
      have hqm : Cache.matchRequest q.2 request = none := hbefore q (List.mem_cons_self _ _)
      simp only [hqm]
      apply ih
      · simpa using hnamed
      · intro p hp
        exact hbefore p (List.mem_cons_of_mem q hp)

theorem CacheStorage.matchRequest_isSome_of_named (cs : CacheStorage) (name : String)
    (request : Request) (stored : Response)
    (hnamed : (cs.cache name).bind (fun c => Cache.matchRequest c request) = some stored) :
    ∃ first, cs.matchRequest request = some first := by
  cases h : cs.matchRequest request with
  | some first => exact ⟨first, rfl⟩
  | none =>
    have hall := (CacheStorage.matchRequest_eq_none_iff cs request).mp h
    have := CacheStorage.matchRequest_of_first_named cs name request stored hnamed
      (fun p hp => hall p (List.takeWhile_subset _ hp))
    rw [h] at this
    exact absurd this (by simp)

theorem offlineResponse_not_ok : offlineResponse.ok = false := by decide

theorem apiFallback_caches (env : Env) (cs : CacheStorage) (request : Request)
    (log : List Call) : (apiFallback env cs request log).caches = cs := by
  unfold apiFallback
  split
  · split <;> rfl
  · rfl

theorem apiFallback_log (env : Env) (cs : CacheStorage) (request : Request)
    (log : List Call) : (apiFallback env cs request log).log = log ++ [.cachesMatch request] := by
  unfold apiFallback
  split
  · split <;> rfl
  · rfl

theorem apiFallback_result (env : Env) (cs : CacheStorage) (request : Request)
    (log : List Call) :
    (apiFallback env cs request log).result =
      match cs.matchRequest request with
      | some cachedResponse =>
        if cacheStillValid env cachedResponse then .fulfilled cachedResponse
        else .fulfilled offlineResponse
      | none => .fulfilled offlineResponse := by
  unfold apiFallback
  split
  · split <;> rfl
  · rfl

theorem strategiesInvoked_handleApiRequest (env : Env) (cs : CacheStorage)
    (request : Request) : strategiesInvoked (handleApiRequest env cs request).log = [] := by
  unfold handleApiRequest
  split
  · split
    · rfl
    · rw [apiFallback_log]; rfl
  · rw [apiFallback_log]; rfl

theorem strategiesInvoked_assetCacheFirst (env : Env) (cs : CacheStorage)
    (request : Request) : strategiesInvoked (assetCacheFirst env cs request).log = [] := by
  unfold assetCacheFirst fetchAndCache
  split
  · rfl
  · split
    · split <;> rfl
    · rfl

/-! ## The API strategy: claims -/

/-- C1 (evaluation of the code): a 200 answer to `GET /api/v1/subjects` is
fetched and stored by `handleApiRequest` at time `T0`; thirty minutes later
the network is unreachable, and `handleApiRequest` answers with the synthesized
503 response, not with the response stored at `T0`. -/
theorem C1_fresh_entry_not_served :
    (handleApiRequest (onlineAt T0 subjectsResponse) [] subjectsRequest).result
        = .fulfilled subjectsResponse
      ∧ ((handleApiRequest (onlineAt T0 subjectsResponse) [] subjectsRequest).caches.cache
            API_CACHE_NAME).bind (fun c => Cache.matchRequest c subjectsRequest)
          = some subjectsResponse
      ∧ (handleApiRequest (offlineAt (T0 + 30 * minute))
            (handleApiRequest (onlineAt T0 subjectsResponse) [] subjectsRequest).caches
            subjectsRequest).result
          = .fulfilled offlineResponse
      ∧ (handleApiRequest (offlineAt (T0 + 30 * minute))
            (handleApiRequest (onlineAt T0 subjectsResponse) [] subjectsRequest).caches
            subjectsRequest).result
          ≠ .fulfilled subjectsResponse := by
  decide

/-- C3 (counterexample): the server answers `GET /api/v1/subjects` with a 500
response and no cache holds an entry; `handleApiRequest` does not return the
live 500 response: it consults the caches and answers with the synthesized 503
response. -/
theorem C3_live_error_not_returned :
    (onlineAt T0 serverErrorResponse).fetch subjectsRequest = .fulfilled serverErrorResponse
      ∧ serverErrorResponse.ok = false
      ∧ (handleApiRequest (onlineAt T0 serverErrorResponse) [] subjectsRequest).result
          ≠ .fulfilled serverErrorResponse
      ∧ (handleApiRequest (onlineAt T0 serverErrorResponse) [] subjectsRequest).result
          = .fulfilled offlineResponse
      ∧ Call.cachesMatch subjectsRequest
          ∈ (handleApiRequest (onlineAt T0 serverErrorResponse) [] subjectsRequest).log := by
  decide

/-- C3 (amended): when the network fetch completes with a non-2xx status,
`handleApiRequest` takes the same fallback as on a transport failure: it looks
the request up with `caches.match` and answers with the cached response when
its `cache-time` age is below one hour, with the synthesized 503 response
otherwise; it makes one fetch, writes to no cache and leaves the caches as
they were. -/
theorem C3_non2xx_takes_fallback (env : Env) (cs : CacheStorage) (request : Request)
    (live : Response)
    (hfetch : env.fetch request = .fulfilled live) (hstatus : live.ok = false) :
    (handleApiRequest env cs request).result =
        (match cs.matchRequest request with
         | some cachedResponse =>
           if cacheStillValid env cachedResponse then .fulfilled cachedResponse
           else .fulfilled offlineResponse
         | none => .fulfilled offlineResponse)
      ∧ (handleApiRequest env cs request).caches = cs
      ∧ (handleApiRequest env cs request).log = [.fetch request, .cachesMatch request]
      ∧ (∀ (offline : Env) (error : String), offline.now = env.now →
          offline.parseDate = env.parseDate → offline.fetch request = .rejected error →
          (handleApiRequest offline cs request).result = (handleApiRequest env cs request).result) := by
  have hunfold : handleApiRequest env cs request = apiFallback env cs request [.fetch request] := by
    unfold handleApiRequest
    rw [hfetch]
    simp [hstatus]
  refine ⟨?_, ?_, ?_, ?_⟩
  · rw [hunfold, apiFallback_result]
  · rw [hunfold, apiFallback_caches]
  · rw [hunfold, apiFallback_log]; rfl
  · intro offline error hnow hparse hrej
    have hoff : handleApiRequest offline cs request
        = apiFallback offline cs request
            [.fetch request, .consoleError "Error fetching API data:"] := by
      unfold handleApiRequest
      rw [hrej]
    have hvalid : ∀ r, cacheStillValid offline r = cacheStillValid env r := by
      intro r
      unfold cacheStillValid cachedTime
      rw [hnow, hparse]
    rw [hunfold, hoff, apiFallback_result, apiFallback_result]
    cases cs.matchRequest request with
    | none => rfl
    | some r => simp only [hvalid]

/-- C3 (amended) at a concrete input: a 500 answer while the API store holds
an entry stamped ten minutes earlier. -/
theorem C3_non2xx_takes_fallback_witness :
    (handleApiRequest (onlineAt (T0 + 10 * minute) serverErrorResponse)
        [(API_CACHE_NAME, [(subjectsRequest, stampedResponse)])] subjectsRequest).result
      = .fulfilled stampedResponse := by
  have h := (C3_non2xx_takes_fallback (onlineAt (T0 + 10 * minute) serverErrorResponse)
    [(API_CACHE_NAME, [(subjectsRequest, stampedResponse)])] subjectsRequest
    serverErrorResponse rfl (by decide)).1
  rw [h]
  decide

/-- C4: when fetch throws and no cache holds an entry for the request,
`handleApiRequest` does not reject; it is fulfilled with one fixed response,
the same for every request: status 503, the single header
`Content-Type: application/json`, and the body
`{"error":"You are offline and no cached data is available."}`. -/
theorem C4_offline_response_exact (env : Env) (cs : CacheStorage) (request : Request)
    (error : String)
    (hfetch : env.fetch request = .rejected error)
    (hmiss : ∀ p ∈ cs, Cache.matchRequest p.2 request = none) :
    (handleApiRequest env cs request).result = .fulfilled offlineResponse
      ∧ offlineResponse.status = 503
      ∧ offlineResponse.headers = [("Content-Type", "application/json")]
      ∧ offlineResponse.body
          = "\x7b\"error\":\"You are offline and no cached data is available.\"\x7d" := by
  have hnone : cs.matchRequest request = none :=
    (CacheStorage.matchRequest_eq_none_iff cs request).mpr hmiss
  refine ⟨?_, by decide, by decide, by decide⟩
  unfold handleApiRequest
  rw [hfetch]
  simp only [apiFallback_result, hnone]

/-- C4 at a concrete input: the static generation holds another request only,
and the network is unreachable. -/
theorem C4_offline_response_exact_witness :
    (handleApiRequest (offlineAt T0) [(CACHE_NAME, [(indexRequest, indexResponse)])]
        subjectsRequest).result = .fulfilled offlineResponse
      ∧ offlineResponse.status = 503
      ∧ offlineResponse.headers = [("Content-Type", "application/json")]
      ∧ offlineResponse.body
          = "\x7b\"error\":\"You are offline and no cached data is available.\"\x7d" :=
  C4_offline_response_exact (offlineAt T0) [(CACHE_NAME, [(indexRequest, indexResponse)])]
    subjectsRequest "TypeError: Failed to fetch" rfl (by decide)

/-- C6 (evaluation of the code): the entry `handleApiRequest` writes at time
`T0` for a 200 answer without a `cache-time` header is that answer unchanged;
the freshness check reads its timestamp as 0 (the epoch), not as `T0`, and an
`updateData` run twenty minutes later rewrites the entry with the same
reading. -/
theorem C6_written_entry_has_no_write_time :
    ((handleApiRequest (onlineAt T0 subjectsResponse) [] subjectsRequest).caches.cache
        API_CACHE_NAME) = some [(subjectsRequest, subjectsResponse)]
      ∧ cachedTime (offlineAt (T0 + 30 * minute)) subjectsResponse = some 0
      ∧ cachedTime (offlineAt (T0 + 30 * minute)) subjectsResponse ≠ some T0
      ∧ ((updateData (onlineAt (T0 + 20 * minute) subjectsResponse)
            (handleApiRequest (onlineAt T0 subjectsResponse) [] subjectsRequest).caches).caches.cache
          API_CACHE_NAME) = some [(subjectsRequest, subjectsResponse)]
      ∧ cachedTime (offlineAt (T0 + 30 * minute)) subjectsResponse ≠ some (T0 + 20 * minute) := by
  decide

/-! ## The asset strategy and the routing: claims -/

/-- C7 (counterexample): `/index.html` is present in the static generation
`neuroimaging-dashboard-v1`, and a cache created earlier under another name
holds another response for it; the fetch listener answers with the response of
the earlier cache, not with the one stored in the static generation. -/
theorem C7_static_entry_shadowed :
    isApiRequest indexRequest = false
      ∧ (CacheStorage.cache [("app-shell", [(indexRequest, foreignResponse)]),
            (CACHE_NAME, [(indexRequest, indexResponse)])] CACHE_NAME).bind
          (fun c => Cache.matchRequest c indexRequest) = some indexResponse
      ∧ (fetchListener (offlineAt T0)
          [("app-shell", [(indexRequest, foreignResponse)]),
           (CACHE_NAME, [(indexRequest, indexResponse)])] indexRequest).result
          = .fulfilled foreignResponse
      ∧ (fetchListener (offlineAt T0)
          [("app-shell", [(indexRequest, foreignResponse)]),
           (CACHE_NAME, [(indexRequest, indexResponse)])] indexRequest).result
          ≠ .fulfilled indexResponse := by
  decide

/-- C7 (amended): for a non-API request present in the static generation
`neuroimaging-dashboard-v1`, the fetch listener answers with the response
`caches.match` finds, the first entry of the request over all caches in
creation order, which is the entry of the static generation whenever no cache
created before it holds the request; it makes no network fetch and no cache
write and leaves the caches as they were. -/
theorem C7_hit_served_without_network (env : Env) (cs : CacheStorage) (request : Request)
    (stored : Response)
    (hasset : isApiRequest request = false)
    (hstatic : (cs.cache CACHE_NAME).bind (fun c => Cache.matchRequest c request)
      = some stored) :
    ∃ first, cs.matchRequest request = some first
      ∧ fetchListener env cs request
          = { result := .fulfilled first, caches := cs
              log := [.respondWith .asset, .cachesMatch request] }
      ∧ (fetchListener env cs request).log.all (fun c => !c.isFetch && !c.isWrite) = true
      ∧ ((∀ p ∈ cs.takeWhile (fun p => !(p.1 == CACHE_NAME)),
            Cache.matchRequest p.2 request = none) → first = stored) := by
  obtain ⟨first, hfirst⟩ :=
    CacheStorage.matchRequest_isSome_of_named cs CACHE_NAME request stored hstatic
  have hrun : fetchListener env cs request
      = { result := .fulfilled first, caches := cs
          log := [.respondWith .asset, .cachesMatch request] } := by
    unfold fetchListener assetCacheFirst
    simp [hasset, hfirst]
  refine ⟨first, hfirst, hrun, ?_, ?_⟩
  · rw [hrun]
    rfl
  · intro hbefore
    have := CacheStorage.matchRequest_of_first_named cs CACHE_NAME request stored hstatic hbefore
    rw [hfirst] at this
    exact Option.some.inj this

/-- C7 (amended) at a concrete input: the static generation is the first
cache holding `/index.html`; the API store comes before it. -/
theorem C7_hit_served_without_network_witness :
    ∃ first, CacheStorage.matchRequest
        [(API_CACHE_NAME, [(subjectsRequest, subjectsResponse)]),
         (CACHE_NAME, [(indexRequest, indexResponse)])] indexRequest = some first
      ∧ fetchListener (offlineAt T0)
          [(API_CACHE_NAME, [(subjectsRequest, subjectsResponse)]),
           (CACHE_NAME, [(indexRequest, indexResponse)])] indexRequest
          = { result := .fulfilled first
              caches := [(API_CACHE_NAME, [(subjectsRequest, subjectsResponse)]),
                         (CACHE_NAME, [(indexRequest, indexResponse)])]
              log := [.respondWith .asset, .cachesMatch indexRequest] }
      ∧ (fetchListener (offlineAt T0)
          [(API_CACHE_NAME, [(subjectsRequest, subjectsResponse)]),
           (CACHE_NAME, [(indexRequest, indexResponse)])] indexRequest).log.all
            (fun c => !c.isFetch && !c.isWrite) = true
      ∧ ((∀ p ∈ List.takeWhile (fun p => !(p.1 == CACHE_NAME))
            [(API_CACHE_NAME, [(subjectsRequest, subjectsResponse)]),
             (CACHE_NAME, [(indexRequest, indexResponse)])],
            Cache.matchRequest p.2 indexRequest = none) → first = indexResponse) :=
  C7_hit_served_without_network (offlineAt T0)
    [(API_CACHE_NAME, [(subjectsRequest, subjectsResponse)]),
     (CACHE_NAME, [(indexRequest, indexResponse)])] indexRequest indexResponse
    (by decide) (by decide)

/-- C9: for a non-API request that no cache holds, when the network fetch
throws, `fetchAndCache` and the fetch listener reject with that same error:
no response is returned, the synthesized 503 response in particular, and the
caches are left as they were. -/
theorem C9_miss_failure_propagates (env : Env) (cs : CacheStorage) (request : Request)
    (error : String)
    (hasset : isApiRequest request = false)
    (hmiss : ∀ p ∈ cs, Cache.matchRequest p.2 request = none)
    (hfetch : env.fetch request = .rejected error) :
    (fetchAndCache env cs request).result = .rejected error
      ∧ (fetchAndCache env cs request).caches = cs
      ∧ (fetchListener env cs request).result = .rejected error
      ∧ (fetchListener env cs request).caches = cs
      ∧ (∀ response, (fetchListener env cs request).result ≠ .fulfilled response)
      ∧ (fetchListener env cs request).log.all (fun c => !c.isWrite) = true := by
  have hnone : cs.matchRequest request = none :=
    (CacheStorage.matchRequest_eq_none_iff cs request).mpr hmiss
  have hrun : fetchAndCache env cs request
      = { result := .rejected error, caches := cs
          log := [.fetch request, .consoleError "Error fetching and caching:"] } := by
    unfold fetchAndCache
    rw [hfetch]
  have hlistener : fetchListener env cs request
      = { result := .rejected error, caches := cs
          log := [.respondWith .asset, .cachesMatch request, .fetch request,
                  .consoleError "Error fetching and caching:"] } := by
    unfold fetchListener assetCacheFirst
    simp [hasset, hnone, hrun]
  refine ⟨?_, ?_, ?_, ?_, ?_, ?_⟩
  · rw [hrun]
  · rw [hrun]
  · rw [hlistener]
  · rw [hlistener]
  · intro response h
    rw [hlistener] at h
    exact Settled.noConfusion h
  · rw [hlistener]
    rfl

/-- C9 at a concrete input: `/index.html` is in no cache and the network is
unreachable. -/
theorem C9_miss_failure_propagates_witness :
    (fetchAndCache (offlineAt T0) [(API_CACHE_NAME, [(subjectsRequest, subjectsResponse)])]
        indexRequest).result = .rejected "TypeError: Failed to fetch" :=
  (C9_miss_failure_propagates (offlineAt T0)
    [(API_CACHE_NAME, [(subjectsRequest, subjectsResponse)])] indexRequest
    "TypeError: Failed to fetch" (by decide) (by decide) rfl).1

/-- C10: for every intercepted request the fetch listener calls `respondWith`
exactly once, with the API strategy `handleApiRequest` when the pathname of
the URL starts with `/api/` and with the asset cache-first strategy when it
does not; the event settles as the chosen strategy does. -/
theorem C10_exactly_one_strategy (env : Env) (cs : CacheStorage) (request : Request) :
    (strategiesInvoked (fetchListener env cs request).log
        = [if startsWith request.url.pathname "/api/" then Strategy.api else Strategy.asset])
      ∧ (strategiesInvoked (fetchListener env cs request).log = [Strategy.api]
          ↔ startsWith request.url.pathname "/api/" = true)
      ∧ (startsWith request.url.pathname "/api/" = true →
          fetchListener env cs request
            = { handleApiRequest env cs request with
                log := .respondWith .api :: (handleApiRequest env cs request).log })
      ∧ (startsWith request.url.pathname "/api/" = false →
          fetchListener env cs request
            = { assetCacheFirst env cs request with
                log := .respondWith .asset :: (assetCacheFirst env cs request).log }) := by
  have hcons : ∀ (s : Strategy) (log : List Call),
      strategiesInvoked (.respondWith s :: log) = s :: strategiesInvoked log := by
    intro s log
    rfl
  have hone : strategiesInvoked (fetchListener env cs request).log
      = [if startsWith request.url.pathname "/api/" then Strategy.api else Strategy.asset] := by
    unfold fetchListener isApiRequest
    cases hp : startsWith request.url.pathname "/api/" with
    | true =>
      simp only [if_true]
      rw [hcons, strategiesInvoked_handleApiRequest]
    | false =>
      simp only [Bool.false_eq_true, if_false]
      rw [hcons, strategiesInvoked_assetCacheFirst]
  refine ⟨hone, ?_, ?_, ?_⟩
  · rw [hone]
    cases startsWith request.url.pathname "/api/" <;> simp
  · intro hp
    unfold fetchListener isApiRequest
    simp [hp]
  · intro hp
    unfold fetchListener isApiRequest
    simp [hp]

/-! ## Lifecycle and background tasks: lemmas -/

theorem CacheStorage.foldl_delete (names : List String) (cs : CacheStorage) :
    names.foldl CacheStorage.delete cs = cs.filter (fun p => !(names.contains p.1)) := by
  induction names generalizing cs with
  | nil => simp
  | cons a rest ih =>
    rw [List.foldl_cons, ih]
    unfold CacheStorage.delete
    rw [List.filter_filter]
    apply List.filter_congr
    intro p _
    by_cases h : p.1 = a
    · simp [h]
    · have h2 : ¬ a = p.1 := fun h3 => h h3.symm
      simp [h, h2]

theorem CacheStorage.cache_filter_kept (cs : CacheStorage) (keep : String → Bool)
    (name : String) (hkeep : keep name = true) :
    CacheStorage.cache (cs.filter (fun p => keep p.1)) name = cs.cache name := by
  unfold CacheStorage.cache
  rw [find?_filter_of_imp]
  intro e he
  have h1 : e.1 = name := by simpa using he
  rw [h1]
  exact hkeep

theorem activateListener_caches (cs : CacheStorage) :
    (activateListener cs).caches = cs.filter (fun p => !(isOldGeneration p.1)) := by
  unfold activateListener
  simp only [CacheStorage.foldl_delete]
  apply List.filter_congr
  intro p hp
  have hmem : p.1 ∈ cs.keys := List.mem_map_of_mem Prod.fst hp
  cases h : isOldGeneration p.1 with
  | true =>
    have : p.1 ∈ cs.keys.filter isOldGeneration := List.mem_filter.mpr ⟨hmem, h⟩
    simp [this]
  | false =>
    have : ¬ p.1 ∈ cs.keys.filter isOldGeneration := by
      intro h2
      have := (List.mem_filter.mp h2).2
      rw [h] at this
      exact absurd this (by decide)
    simp [this]

theorem fetchedOk_eq_true_iff (env : Env) (request : Request) :
    fetchedOk env request = true
      ↔ ∃ r, env.fetch request = .fulfilled r ∧ r.ok = true := by
  unfold fetchedOk
  cases h : env.fetch request with
  | fulfilled r => simp
  | rejected e => simp

theorem CacheStorage.cache_map_named (cs : CacheStorage) (name : String)
    (f : Cache → Cache) :
    CacheStorage.cache (cs.map (fun p => if p.1 == name then (p.1, f p.2) else p)) name
      = (cs.cache name).map f := by
  induction cs with
  | nil => rfl
  | cons q rest ih =>
    rw [List.map_cons, CacheStorage.cache_cons, CacheStorage.cache_cons]
    cases hq : (q.1 == name) with
    | true => simp [hq]
    | false => simpa [hq] using ih

theorem CacheStorage.filter_map_named (cs : CacheStorage) (name : String)
    (f : Cache → Cache) :
    (cs.map (fun p => if p.1 == name then (p.1, f p.2) else p)).filter
        (fun p => !(p.1 == name))
      = cs.filter (fun p => !(p.1 == name)) := by
  induction cs with
  | nil => rfl
  | cons q rest ih =>
    cases hq : (q.1 == name) with
    | true =>
      simp only [List.map_cons, hq, if_true]
      rw [List.filter_cons_of_neg (by simp [hq]), List.filter_cons_of_neg (by simp [hq])]
      exact ih
    | false =>
      simp only [List.map_cons, hq, Bool.false_eq_true, if_false]
      rw [List.filter_cons_of_pos (by simp [hq]), List.filter_cons_of_pos (by simp [hq]), ih]

theorem syncOne_results (env : Env) (s : SyncOutcome) (a : Request) :
    (syncOne env s a).results = s.results ++ [replayResult env a] := by
  unfold syncOne replayResult
  cases env.fetch a with
  | fulfilled r => by_cases h : r.ok = true <;> simp [h]
  | rejected e => rfl

theorem syncOne_fetches (env : Env) (s : SyncOutcome) (a : Request) :
    fetchesOf (syncOne env s a).log = fetchesOf s.log ++ [a] := by
  unfold syncOne fetchesOf
  cases env.fetch a with
  | fulfilled r => by_cases h : r.ok = true <;> simp [h, List.filterMap_append]
  | rejected e => simp [List.filterMap_append]

theorem syncOne_caches (env : Env) (s : SyncOutcome) (a : Request) :
    (syncOne env s a).caches
      = if fetchedOk env a then s.caches.deleteIn "offline-scans" a else s.caches := by
  unfold syncOne fetchedOk
  cases env.fetch a with
  | fulfilled r => by_cases h : r.ok = true <;> simp [h]
  | rejected e => simp

theorem syncOne_foldl_results (env : Env) (l : List Request) (s : SyncOutcome) :
    (l.foldl (syncOne env) s).results = s.results ++ l.map (replayResult env) := by
  induction l generalizing s with
  | nil => simp
  | cons a rest ih => rw [List.foldl_cons, ih, syncOne_results]; simp

theorem syncOne_foldl_fetches (env : Env) (l : List Request) (s : SyncOutcome) :
    fetchesOf (l.foldl (syncOne env) s).log = fetchesOf s.log ++ l := by
  induction l generalizing s with
  | nil => simp
  | cons a rest ih => rw [List.foldl_cons, ih, syncOne_fetches]; simp

theorem syncOne_foldl_others (env : Env) (l : List Request) (s : SyncOutcome) :
    (l.foldl (syncOne env) s).caches.filter (fun p => !(p.1 == "offline-scans"))
      = s.caches.filter (fun p => !(p.1 == "offline-scans")) := by
  induction l generalizing s with
  | nil => rfl
  | cons a rest ih =>
    rw [List.foldl_cons, ih, syncOne_caches]
    cases fetchedOk env a with
    | true => exact CacheStorage.filter_map_named s.caches "offline-scans" _
    | false => rfl

theorem syncOne_foldl_queue (env : Env) (l : List Request) (s : SyncOutcome) :
    (l.foldl (syncOne env) s).caches.cache "offline-scans"
      = (s.caches.cache "offline-scans").map
          (fun c => c.filter (fun e => !(l.contains e.1 && fetchedOk env e.1))) := by
  induction l generalizing s with
  | nil =>
    rw [List.foldl_nil]
    cases s.caches.cache "offline-scans" with
    | none => rfl
    | some c => simp
  | cons a rest ih =>
    rw [List.foldl_cons, ih, syncOne_caches]
    cases hok : fetchedOk env a with
    | true =>
      simp only [if_true]
      have hdel : (s.caches.deleteIn "offline-scans" a).cache "offline-scans"
          = (s.caches.cache "offline-scans").map (fun c => Cache.delete c a) :=
        CacheStorage.cache_map_named s.caches "offline-scans" _
      rw [hdel]
      cases s.caches.cache "offline-scans" with
      | none => rfl
      | some c =>
        simp only [Option.map_some']
        congr 1
        unfold Cache.delete
        rw [List.filter_filter]
        apply List.filter_congr
        intro e _
        by_cases hea : e.1 = a
        · simp [hea, hok]
        · have hae : ¬ a = e.1 := fun h => hea h.symm
          simp [hea, hae]
    | false =>
      simp only [Bool.false_eq_true, if_false]
      cases s.caches.cache "offline-scans" with
      | none => rfl
      | some c =>
        simp only [Option.map_some']
        congr 1
        apply List.filter_congr
        intro e _
        by_cases hea : e.1 = a
        · simp [hea, hok]
        · have hae : ¬ a = e.1 := fun h => hea h.symm
          simp [hea, hae]

theorem syncOne_foldl_log (env : Env) (l : List Request) (s : SyncOutcome) :
    ∃ t, (l.foldl (syncOne env) s).log = s.log ++ t := by
  induction l generalizing s with
  | nil => exact ⟨[], by simp⟩
  | cons a rest ih =>
    obtain ⟨t, ht⟩ := ih (syncOne env s a)
    have hstep : ∃ u, (syncOne env s a).log = s.log ++ u := by
      unfold syncOne
      cases env.fetch a with
      | fulfilled r => by_cases h : r.ok = true <;> simp [h]
      | rejected e => simp
    obtain ⟨u, hu⟩ := hstep
    exact ⟨u ++ t, by rw [List.foldl_cons, ht, hu, List.append_assoc]⟩

theorem updateOne_foldl_log (env : Env) (l : List Request) (b : Batch) :
    ∃ t, (l.foldl (updateOne env) b).log = b.log ++ t := by
  induction l generalizing b with
  | nil => exact ⟨[], by simp⟩
  | cons a rest ih =>
    obtain ⟨t, ht⟩ := ih (updateOne env b a)
    have hstep : ∃ u, (updateOne env b a).log = b.log ++ u := by
      unfold updateOne
      cases env.fetch a with
      | fulfilled r => by_cases h : r.ok = true <;> simp [h]
      | rejected e => simp
    obtain ⟨u, hu⟩ := hstep
    exact ⟨u ++ t, by rw [List.foldl_cons, ht, hu, List.append_assoc]⟩

theorem syncScans_log_ne_nil (env : Env) (cs : CacheStorage) : (syncScans env cs).log ≠ [] := by
  unfold syncScans
  obtain ⟨t, ht⟩ := syncOne_foldl_log env
    (Cache.keys (((cs.open "offline-scans").cache "offline-scans").getD []))
    { results := [], caches := cs.open "offline-scans", log := [.cachesOpen "offline-scans"] }
  simp only [ht]
  simp

theorem updateData_log_ne_nil (env : Env) (cs : CacheStorage) : (updateData env cs).log ≠ [] := by
  unfold updateData
  obtain ⟨t, ht⟩ := updateOne_foldl_log env
    (Cache.keys (((cs.open API_CACHE_NAME).cache API_CACHE_NAME).getD []))
    { caches := cs.open API_CACHE_NAME, log := [.cachesOpen API_CACHE_NAME] }
  simp only [ht]
  simp

/-! ## Lifecycle and background tasks: claims -/

/-- C11: after the `activate` handler the caches are exactly the prior ones
minus those whose name starts with `neuroimaging-dashboard-` and differs from
`neuroimaging-dashboard-v1`; every other cache is kept with its entries, among
them the static generation, the API store `api-cache-v1`, the queue
`offline-scans` and every cache whose name lacks the leading text. -/
theorem C11_activate_deletes_old_generations (cs : CacheStorage) :
    (activateListener cs).caches
        = cs.filter (fun p =>
            !(startsWith p.1 "neuroimaging-dashboard-" && p.1 != "neuroimaging-dashboard-v1"))
      ∧ (∀ name, name ∈ (activateListener cs).caches.keys
          ↔ (name ∈ cs.keys
              ∧ ¬ (startsWith name "neuroimaging-dashboard-" = true
                    ∧ name ≠ "neuroimaging-dashboard-v1")))
      ∧ (∀ name, ¬ (startsWith name "neuroimaging-dashboard-" = true
                    ∧ name ≠ "neuroimaging-dashboard-v1")
          → (activateListener cs).caches.cache name = cs.cache name)
      ∧ (activateListener cs).caches.cache CACHE_NAME = cs.cache CACHE_NAME
      ∧ (activateListener cs).caches.cache API_CACHE_NAME = cs.cache API_CACHE_NAME
      ∧ (activateListener cs).caches.cache "offline-scans" = cs.cache "offline-scans" := by
  have hcaches := activateListener_caches cs
  have hold : ∀ name, isOldGeneration name = true
      ↔ (startsWith name "neuroimaging-dashboard-" = true
          ∧ name ≠ "neuroimaging-dashboard-v1") := by
    intro name
    unfold isOldGeneration CACHE_NAME
    simp
  have hkept : ∀ name, ¬ (startsWith name "neuroimaging-dashboard-" = true
        ∧ name ≠ "neuroimaging-dashboard-v1")
      → (activateListener cs).caches.cache name = cs.cache name := by
    intro name hname
    rw [hcaches]
    apply CacheStorage.cache_filter_kept cs (fun n => !(isOldGeneration n)) name
    cases h : isOldGeneration name with
    | true => exact absurd ((hold name).mp h) hname
    | false => rfl
  refine ⟨?_, ?_, hkept, ?_, ?_, ?_⟩
  · rw [hcaches]
    rfl
  · intro name
    rw [hcaches]
    unfold CacheStorage.keys
    constructor
    · intro h
      obtain ⟨p, hp, hpn⟩ := List.mem_map.mp h
      have hp2 := List.mem_filter.mp hp
      refine ⟨List.mem_map.mpr ⟨p, hp2.1, hpn⟩, ?_⟩
      intro hbad
      have hgen : isOldGeneration p.1 = true := by
        rw [hpn]
        exact (hold name).mpr hbad
      have := hp2.2
      rw [hgen] at this
      exact absurd this (by decide)
    · intro h
      obtain ⟨p, hp, hpn⟩ := List.mem_map.mp h.1
      refine List.mem_map.mpr ⟨p, List.mem_filter.mpr ⟨hp, ?_⟩, hpn⟩
      cases hgen : isOldGeneration p.1 with
      | true =>
        rw [hpn] at hgen
        exact absurd ((hold name).mp hgen) h.2
      | false => rfl
  · exact hkept CACHE_NAME (by decide)
  · exact hkept API_CACHE_NAME (by decide)
  · exact hkept "offline-scans" (by decide)

/-- C13: whatever the queue `offline-scans` holds and however the network
behaves, after `syncScans` the queue holds exactly the entries whose replay
was not answered with a 2xx response, in their order: an entry replayed with a
2xx response is absent, an entry whose replay rejected or was answered outside
200 to 299 is still there unchanged.  Every queued request is fetched once,
`syncScans` resolves with one result per request (it never rejects, a failed
replay gives `null` and the others go on), and the other caches are as
before. -/
theorem C13_sync_removes_exactly_the_replayed (env : Env) (cs : CacheStorage) :
    (syncScans env cs).caches.cache "offline-scans"
        = some (((cs.cache "offline-scans").getD []).filter
            (fun e => !(fetchedOk env e.1)))
      ∧ (∀ e ∈ (cs.cache "offline-scans").getD [],
          (∃ r, env.fetch e.1 = .fulfilled r ∧ r.ok = true) →
            Cache.matchRequest (((syncScans env cs).caches.cache "offline-scans").getD [])
              e.1 = none)
      ∧ (∀ e ∈ (cs.cache "offline-scans").getD [],
          ((∃ error, env.fetch e.1 = .rejected error)
            ∨ (∃ r, env.fetch e.1 = .fulfilled r ∧ r.ok = false)) →
            e ∈ ((syncScans env cs).caches.cache "offline-scans").getD [])
      ∧ fetchesOf (syncScans env cs).log = Cache.keys ((cs.cache "offline-scans").getD [])
      ∧ (syncScans env cs).results
          = (Cache.keys ((cs.cache "offline-scans").getD [])).map (replayResult env)
      ∧ (syncScans env cs).caches.filter (fun p => !(p.1 == "offline-scans"))
          = cs.filter (fun p => !(p.1 == "offline-scans")) := by
  have hopen : (cs.open "offline-scans").cache "offline-scans"
      = some ((cs.cache "offline-scans").getD []) :=
    CacheStorage.cache_open_same cs "offline-scans"
  have hrun : syncScans env cs
      = (Cache.keys ((cs.cache "offline-scans").getD [])).foldl (syncOne env)
          { results := [], caches := cs.open "offline-scans"
            log := [.cachesOpen "offline-scans"] } := by
    unfold syncScans
    simp only [hopen, Option.getD_some]
  have hqueue : (syncScans env cs).caches.cache "offline-scans"
      = some (((cs.cache "offline-scans").getD []).filter
          (fun e => !(fetchedOk env e.1))) := by
    rw [hrun, syncOne_foldl_queue]
    simp only [hopen, Option.map_some']
    congr 1
    apply List.filter_congr
    intro e he
    have hkey : e.1 ∈ Cache.keys ((cs.cache "offline-scans").getD []) :=
      List.mem_map_of_mem Prod.fst he
    simp [hkey]
  refine ⟨hqueue, ?_, ?_, ?_, ?_, ?_⟩
  · intro e _ hok
    have hfo : fetchedOk env e.1 = true := (fetchedOk_eq_true_iff env e.1).mpr hok
    rw [hqueue, Option.getD_some]
    unfold Cache.matchRequest
    have hnone : (((cs.cache "offline-scans").getD []).filter
        (fun x => !(fetchedOk env x.1))).find? (fun x => x.1 == e.1) = none := by
      rw [List.find?_eq_none]
      intro x hx hxe
      have hx1 : x.1 = e.1 := by simpa using hxe
      have := (List.mem_filter.mp hx).2
      rw [hx1, hfo] at this
      exact absurd this (by decide)
    rw [hnone]
    rfl
  · intro e he hfail
    have hfo : fetchedOk env e.1 = false := by
      unfold fetchedOk
      rcases hfail with ⟨error, h1⟩ | ⟨r, h1, h2⟩
      · rw [h1]
      · rw [h1]
        exact h2
    rw [hqueue, Option.getD_some]
    exact List.mem_filter.mpr ⟨he, by simp [hfo]⟩
  · rw [hrun, syncOne_foldl_fetches]
    rfl
  · rw [hrun, syncOne_foldl_results]
    rfl
  · rw [hrun, syncOne_foldl_others]
    exact CacheStorage.filter_open_other cs "offline-scans"

/-- C15 (evaluation of the code): the API store holds one entry whose
`cache-time` header names `T0`; `updateData` runs twice, twenty and forty
minutes later, with a network that answers every fetch with a 200 response
without a `cache-time` header.  The identities of the store are the same after
each run, but the timestamp the freshness check reads for the entry falls from
`T0` to 0 after the first run. -/
theorem C15_refresh_lowers_timestamp :
    Cache.keys ((CacheStorage.cache
        [(API_CACHE_NAME, [(subjectsRequest, stampedResponse)])] API_CACHE_NAME).getD [])
        = [subjectsRequest]
      ∧ Cache.keys (((updateData (onlineAt (T0 + 20 * minute) subjectsResponse)
          [(API_CACHE_NAME, [(subjectsRequest, stampedResponse)])]).caches.cache
            API_CACHE_NAME).getD []) = [subjectsRequest]
      ∧ Cache.keys (((updateData (onlineAt (T0 + 40 * minute) subjectsResponse)
          (updateData (onlineAt (T0 + 20 * minute) subjectsResponse)
            [(API_CACHE_NAME, [(subjectsRequest, stampedResponse)])]).caches).caches.cache
            API_CACHE_NAME).getD []) = [subjectsRequest]
      ∧ cachedTime (onlineAt (T0 + 20 * minute) subjectsResponse) stampedResponse = some T0
      ∧ ((updateData (onlineAt (T0 + 20 * minute) subjectsResponse)
          [(API_CACHE_NAME, [(subjectsRequest, stampedResponse)])]).caches.cache
            API_CACHE_NAME).bind (fun c => (Cache.matchRequest c subjectsRequest).bind
              (cachedTime (onlineAt (T0 + 20 * minute) subjectsResponse))) = some 0
      ∧ ¬ ((0 : Int) ≥ T0) := by
  decide

/-- C16: the `sync` listener runs `syncScans` exactly when the tag is
`sync-scans`, the `periodicsync` listener runs `updateData` exactly when the
tag is `update-data`; for every other tag the listener makes no call at all,
so no fetch, and leaves the caches as they were. -/
theorem C16_dispatch_by_exact_tag (env : Env) (cs : CacheStorage) (tag : String) :
    (tag = "sync-scans" →
        syncListener env cs tag
          = { caches := (syncScans env cs).caches, log := (syncScans env cs).log })
      ∧ (tag ≠ "sync-scans" → syncListener env cs tag = { caches := cs, log := [] })
      ∧ ((syncListener env cs tag).log ≠ [] ↔ tag = "sync-scans")
      ∧ (tag = "update-data" → periodicSyncListener env cs tag = updateData env cs)
      ∧ (tag ≠ "update-data" → periodicSyncListener env cs tag = { caches := cs, log := [] })
      ∧ ((periodicSyncListener env cs tag).log ≠ [] ↔ tag = "update-data") := by
  refine ⟨?_, ?_, ?_, ?_, ?_, ?_⟩
  · intro h
    unfold syncListener
    rw [if_pos h]
  · intro h
    unfold syncListener
    rw [if_neg h]
  · unfold syncListener
    by_cases h : tag = "sync-scans"
    · rw [if_pos h]
      exact ⟨fun _ => h, fun _ => syncScans_log_ne_nil env cs⟩
    · rw [if_neg h]
      exact ⟨fun h2 => absurd rfl h2, fun h2 => absurd h2 h⟩
  · intro h
    unfold periodicSyncListener
    rw [if_pos h]
  · intro h
    unfold periodicSyncListener
    rw [if_neg h]
  · unfold periodicSyncListener
    by_cases h : tag = "update-data"
    · rw [if_pos h]
      exact ⟨fun _ => h, fun _ => updateData_log_ne_nil env cs⟩
    · rw [if_neg h]
      exact ⟨fun h2 => absurd rfl h2, fun h2 => absurd h2 h⟩

/-- C17: when the fetch of an API request rejects or is answered outside 200
to 299, `handleApiRequest` leaves every cache exactly as it was, whether it
answers with a cached response or with the synthesized 503 response: it makes
no cache write, opens no cache, and an expired entry stays in place. -/
theorem C17_failure_writes_nothing (env : Env) (cs : CacheStorage) (request : Request)
    (hfail : (∃ error, env.fetch request = .rejected error)
      ∨ (∃ r, env.fetch request = .fulfilled r ∧ r.ok = false)) :
    (handleApiRequest env cs request).caches = cs
      ∧ (handleApiRequest env cs request).log.all (fun c => !c.isWrite) = true
      ∧ (∀ name, Call.cachesOpen name ∉ (handleApiRequest env cs request).log) := by
  have hrun : ∃ log, handleApiRequest env cs request = apiFallback env cs request log
      ∧ log.all (fun c => !c.isWrite) = true ∧ (∀ name, Call.cachesOpen name ∉ log) := by
    rcases hfail with ⟨error, h1⟩ | ⟨r, h1, h2⟩
    · refine ⟨[.fetch request, .consoleError "Error fetching API data:"], ?_, by rfl, by simp⟩
      unfold handleApiRequest
      rw [h1]
    · refine ⟨[.fetch request], ?_, by rfl, by simp⟩
      unfold handleApiRequest
      rw [h1]
      simp [h2]
  obtain ⟨log, hlog, hwrite, hopen⟩ := hrun
  rw [hlog, apiFallback_caches, apiFallback_log]
  refine ⟨rfl, ?_, ?_⟩
  · rw [List.all_append, hwrite]
    rfl
  · intro name hmem
    rcases List.mem_append.mp hmem with h1 | h1
    · exact hopen name h1
    · simp at h1

/-- C17 at a concrete input: the API store holds an entry stamped ninety
minutes earlier and the network is unreachable; the expired entry stays. -/
theorem C17_failure_writes_nothing_witness :
    (handleApiRequest (offlineAt (T0 + 90 * minute))
        [(API_CACHE_NAME, [(subjectsRequest, stampedResponse)])] subjectsRequest).caches
      = [(API_CACHE_NAME, [(subjectsRequest, stampedResponse)])] :=
  (C17_failure_writes_nothing (offlineAt (T0 + 90 * minute))
    [(API_CACHE_NAME, [(subjectsRequest, stampedResponse)])] subjectsRequest
    (Or.inl ⟨"TypeError: Failed to fetch", rfl⟩)).1

/-- C18 (counterexample): `GET /api/v1/subjects` is absent from the API
store `api-cache-v1`, the queue `offline-scans` holds an entry for it stamped
ten minutes earlier, and the network is unreachable; `handleApiRequest`
answers with the entry of `offline-scans`, not with the synthesized 503
response. -/
theorem C18_other_cache_answers :
    (CacheStorage.cache
        [("offline-scans", [(subjectsRequest, stampedResponse)]), (API_CACHE_NAME, [])]
        API_CACHE_NAME).bind (fun c => Cache.matchRequest c subjectsRequest) = none
      ∧ (handleApiRequest (offlineAt (T0 + 10 * minute))
          [("offline-scans", [(subjectsRequest, stampedResponse)]), (API_CACHE_NAME, [])]
          subjectsRequest).result = .fulfilled stampedResponse
      ∧ (handleApiRequest (offlineAt (T0 + 10 * minute))
          [("offline-scans", [(subjectsRequest, stampedResponse)]), (API_CACHE_NAME, [])]
          subjectsRequest).result ≠ .fulfilled offlineResponse := by
  decide

/-- C18 (amended): on a transport failure the fallback of the API strategy
consults every cache through `caches.match`, in creation order.  For an API
request absent from `api-cache-v1`, `handleApiRequest` answers with the
synthesized 503 response when no other cache holds the request, or when the
entry `caches.match` finds has a `cache-time` age of one hour or more; when
that entry has an age below one hour it is returned, and it comes from a cache
other than the API store. -/
theorem C18_fallback_consults_all_caches (env : Env) (cs : CacheStorage)
    (request : Request) (error : String)
    (hfetch : env.fetch request = .rejected error)
    (habsent : ∀ p ∈ cs, p.1 = API_CACHE_NAME → Cache.matchRequest p.2 request = none) :
    ((∀ p ∈ cs, p.1 ≠ API_CACHE_NAME → Cache.matchRequest p.2 request = none) →
        (handleApiRequest env cs request).result = .fulfilled offlineResponse)
      ∧ (∀ first, cs.matchRequest request = some first →
          (∃ p ∈ cs, p.1 ≠ API_CACHE_NAME ∧ Cache.matchRequest p.2 request = some first)
            ∧ (cacheStillValid env first = true →
                (handleApiRequest env cs request).result = .fulfilled first)
            ∧ (cacheStillValid env first = false →
                (handleApiRequest env cs request).result = .fulfilled offlineResponse)) := by
  have hres : (handleApiRequest env cs request).result =
      match cs.matchRequest request with
      | some cachedResponse =>
        if cacheStillValid env cachedResponse then .fulfilled cachedResponse
        else .fulfilled offlineResponse
      | none => .fulfilled offlineResponse := by
    unfold handleApiRequest
    rw [hfetch, apiFallback_result]
  constructor
  · intro hothers
    have hnone : cs.matchRequest request = none := by
      rw [CacheStorage.matchRequest_eq_none_iff]
      intro p hp
      by_cases hname : p.1 = API_CACHE_NAME
      · exact habsent p hp hname
      · exact hothers p hp hname
    rw [hres, hnone]
  · intro first hfirst
    refine ⟨?_, ?_, ?_⟩
    · obtain ⟨p, hp, hpm⟩ := List.exists_of_findSome?_eq_some hfirst
      refine ⟨p, hp, ?_, hpm⟩
      intro hname
      rw [habsent p hp hname] at hpm
      exact Option.noConfusion hpm
    · intro hvalid
      rw [hres, hfirst]
      simp [hvalid]
    · intro hinvalid
      rw [hres, hfirst]
      simp [hinvalid]

/-- C18 (amended) at a concrete input: the static generation, created before
the API store, holds an entry for the API request stamped ten minutes
earlier. -/
theorem C18_fallback_consults_all_caches_witness :
    (handleApiRequest (offlineAt (T0 + 10 * minute))
        [(CACHE_NAME, [(subjectsRequest, stampedResponse)]),
         (API_CACHE_NAME, [(indexRequest, indexResponse)])] subjectsRequest).result
      = .fulfilled stampedResponse :=
  ((C18_fallback_consults_all_caches (offlineAt (T0 + 10 * minute))
    [(CACHE_NAME, [(subjectsRequest, stampedResponse)]),
     (API_CACHE_NAME, [(indexRequest, indexResponse)])] subjectsRequest
    "TypeError: Failed to fetch" rfl (by decide)).2 stampedResponse (by decide)).2.1 (by decide)

/-- C19: under a transport failure, when the cached response `caches.match`
finds has no `cache-time` header (its time is read as 0, the epoch) or a
`cache-time` header that is not a date (its time is `NaN`), and the clock is
at least one hour after the epoch, `handleApiRequest` answers with the
synthesized 503 response and not with the cached 2xx response, whenever that
response was stored. -/
theorem C19_unstamped_entry_never_served (env : Env) (cs : CacheStorage) (request : Request)
    (error : String) (cached : Response)
    (hfetch : env.fetch request = .rejected error)
    (hcached : cs.matchRequest request = some cached)
    (hheader : Headers.get cached.headers "cache-time" = none
      ∨ (∃ text, Headers.get cached.headers "cache-time" = some text
          ∧ env.parseDate text = none))
    (hnow : env.now ≥ 3600000) :
    (handleApiRequest env cs request).result = .fulfilled offlineResponse
      ∧ (Headers.get cached.headers "cache-time" = none → cachedTime env cached = some 0)
      ∧ (cached.ok = true → (handleApiRequest env cs request).result ≠ .fulfilled cached) := by
  have hzero : Headers.get cached.headers "cache-time" = none → cachedTime env cached = some 0 := by
    intro h
    unfold cachedTime
    rw [h]
  have hinvalid : cacheStillValid env cached = false := by
    unfold cacheStillValid
    rcases hheader with h | ⟨text, h1, h2⟩
    · rw [hzero h]
      have hdur : API_CACHE_DURATION = 3600000 := by decide
      simp only [hdur, decide_eq_false_iff_not, not_lt]
      omega
    · have : cachedTime env cached = none := by
        unfold cachedTime
        rw [h1]
        exact h2
      rw [this]
  have hres : (handleApiRequest env cs request).result = .fulfilled offlineResponse := by
    unfold handleApiRequest
    rw [hfetch, apiFallback_result, hcached]
    simp [hinvalid]
  refine ⟨hres, hzero, ?_⟩
  intro hok heq
  rw [hres] at heq
  injection heq with h
  rw [← h, offlineResponse_not_ok] at hok
  exact absurd hok (by decide)

/-- C19 at a concrete input: the API store holds a 200 response without a
`cache-time` header, and the network is unreachable one minute after `T0`. -/
theorem C19_unstamped_entry_never_served_witness :
    (handleApiRequest (offlineAt (T0 + 1 * minute))
        [(API_CACHE_NAME, [(subjectsRequest, subjectsResponse)])] subjectsRequest).result
      = .fulfilled offlineResponse :=
  (C19_unstamped_entry_never_served (offlineAt (T0 + 1 * minute))
    [(API_CACHE_NAME, [(subjectsRequest, subjectsResponse)])] subjectsRequest
    "TypeError: Failed to fetch" subjectsResponse rfl (by decide) (Or.inl (by decide))
    (by decide)).1

end ServiceWorker
